import Mathlib

/-!
Shallow embedding of the interaction and animation state engine of
`src/components/JewelTreeScene.tsx` (an interactive 3D particle-art scene).

Conventions:
* JS numbers are modelled as `ℚ` (all constants in the source are exact
  decimals); machine floats are out of scope of the claims.
* The untyped particle records (`gold: [] as any[]`, …) are modelled with
  `Option Vec3` target fields, reflecting that the JS update loop guards
  against an `undefined` target (`if (!target) target = item.currentPos`).
* `three.js` `Vector3.normalize` divides by the Euclidean norm (and leaves
  the zero vector unchanged).  Over `ℚ` the unit direction is generally not
  representable, so the particle tick takes the unit direction `u` as an
  argument, constrained by the predicate `UnitDirOf`.
-/

namespace JewelTree

/-- Display mode, `AppState` in `src/App.tsx`: TREE = 'tree', SCATTER = 'scatter',
ZOOM = 'zoom'. -/
inductive AppState
  | TREE
  | SCATTER
  | ZOOM
deriving DecidableEq, Repr

/-- A 3D point with rational coordinates (model of `THREE.Vector3`). -/
structure Vec3 where
  x : ℚ
  y : ℚ
  z : ℚ
deriving DecidableEq, Repr

def vzero : Vec3 := ⟨0, 0, 0⟩

def vadd (a b : Vec3) : Vec3 := ⟨a.x + b.x, a.y + b.y, a.z + b.z⟩

def vsub (a b : Vec3) : Vec3 := ⟨a.x - b.x, a.y - b.y, a.z - b.z⟩

def smul (k : ℚ) (a : Vec3) : Vec3 := ⟨k * a.x, k * a.y, k * a.z⟩

/-- Squared Euclidean distance.  `a.distanceTo(b) < c` (with `0 ≤ c`) is
equivalent to `dist2 a b < c ^ 2`, which avoids square roots over `ℚ`. -/
def dist2 (a b : Vec3) : ℚ :=
  (a.x - b.x) ^ 2 + (a.y - b.y) ^ 2 + (a.z - b.z) ^ 2

/-- `THREE.Vector3.lerp`: `this.add((v - this) * alpha)`. -/
def lerpV (c t : Vec3) (r : ℚ) : Vec3 := vadd c (smul r (vsub t c))

/-- `u` is the result of `v.normalize()` in three.js: `v / ‖v‖`, with the zero
vector left unchanged. -/
def UnitDirOf (u v : Vec3) : Prop :=
  (v = vzero ∧ u = vzero) ∨ (dist2 u vzero = 1 ∧ ∃ k : ℚ, 0 < k ∧ v = smul k u)

/-- Particle group tags (`type` strings in `updateInstancedSystem`). -/
inductive PType
  | gold
  | silver
  | gem
  | emerald
  | trunk
  | grass
deriving DecidableEq, Repr

/-- One particle record of the untyped logic arrays: `treePos`, `scatterPos`,
`currentPos` (the arrays are `any[]`, so the two target fields may be absent —
the update loop explicitly guards against that). -/
structure Particle where
  treePos : Option Vec3
  scatterPos : Option Vec3
  currentPos : Vec3
deriving DecidableEq, Repr

/-- `logicDataRef.current.textTargets`: the precomputed glyph point clouds
("Merry Christmas!" for gold, "圣诞快乐！" for silver; gem re-uses silver). -/
structure TextTargets where
  gold : List Vec3
  silver : List Vec3
deriving DecidableEq, Repr

/-- `const formingText = isEpic && epicTime > 4.0 && epicTime < 16.0;` -/
def formingText (isEpic : Bool) (epicTime : ℚ) : Bool :=
  isEpic && decide (4 < epicTime) && decide (epicTime < 16)

/-- `const participatesInText = (type === 'gold' || type === 'silver' || type === 'gem');` -/
def participatesInText (t : PType) : Bool :=
  t == PType.gold || t == PType.silver || t == PType.gem

/-- `let target = state === TREE ? item.treePos : item.scatterPos;
if (state === ZOOM) target = item.scatterPos;` -/
def modeTarget (state : AppState) (p : Particle) : Option Vec3 :=
  match state with
  | AppState.TREE => p.treePos
  | AppState.SCATTER => p.scatterPos
  | AppState.ZOOM => p.scatterPos

/-- The glyph cloud a participating group reads: gold has its own; silver and
gem both read `textTargets.silver`. -/
def glyphCloud (tts : TextTargets) (t : PType) : List Vec3 :=
  if t = PType.gold then tts.gold else tts.silver

/-- Target resolution for particle `i` of a group
(`updateInstancedSystem`, the `let target = …` block):
mode target, overridden by the glyph cloud while forming text. -/
def resolveTarget (state : AppState) (ft : Bool) (tt : Option TextTargets)
    (ptype : PType) (i : ℕ) (p : Particle) : Option Vec3 :=
  let base := modeTarget state p
  match tt with
  | none => base
  | some tts =>
    if ft = true ∧ participatesInText ptype = true then
      if ptype = PType.gold ∧ 0 < tts.gold.length then
        tts.gold.get? (i % tts.gold.length)
      else if (ptype = PType.silver ∨ ptype = PType.gem) ∧ 0 < tts.silver.length then
        tts.silver.get? (i % tts.silver.length)
      else base
    else base

/-- The repulsion nudge (`if (repelPos && state === AppState.TREE && !isEpic) …`):
when the repulsion point is within 18 units (`dist2 < 324`), the particle is
pushed `0.2` units along the unit direction `u` of `currentPos − repel`. -/
def repelNudge (state : AppState) (isEpic : Bool) (repel : Option Vec3)
    (u : Vec3) (c : Vec3) : Vec3 :=
  match repel with
  | none => c
  | some rp =>
    if state = AppState.TREE ∧ isEpic = false ∧ dist2 c rp < 324 then
      vadd c (smul (1 / 5) u)
    else c

/-- The repulsion branch actually fires for this particle on this tick. -/
def RepelFires (state : AppState) (isEpic : Bool) (repel : Option Vec3) (c : Vec3) : Prop :=
  ∃ rp, repel = some rp ∧ state = AppState.TREE ∧ isEpic = false ∧ dist2 c rp < 324

/-- `const speed = formingText ? 0.08 : 0.05;` -/
def easeRate (ft : Bool) : ℚ := if ft then 2 / 25 else 1 / 20

/-- One tick of `updateInstancedSystem` for one particle: resolve the target,
apply the repulsion nudge, ease via `currentPos.lerp(target, speed)`.
When the resolved target is `none`, the JS guard `if (!target) target =
item.currentPos` makes `target` an alias of `currentPos`, so the lerp leaves
the (possibly nudged) position unchanged. -/
def particleTick (state : AppState) (isEpic : Bool) (epicTime : ℚ)
    (tt : Option TextTargets) (repel : Option Vec3) (u : Vec3)
    (ptype : PType) (i : ℕ) (p : Particle) : Vec3 :=
  let ft := formingText isEpic epicTime
  let target := resolveTarget state ft tt ptype i p
  let c1 := repelNudge state isEpic repel u p.currentPos
  match target with
  | none => c1
  | some t => lerpV c1 t (easeRate ft)

theorem dist2_nonneg (a b : Vec3) : 0 ≤ dist2 a b := by
  unfold dist2
  positivity

theorem dist2_lerpV (c t : Vec3) (r : ℚ) :
    dist2 (lerpV c t r) t = (1 - r) ^ 2 * dist2 c t := by
  simp only [dist2, lerpV, vadd, smul, vsub]
  ring

theorem easeRate_sq_le_one (ft : Bool) : (1 - easeRate ft) ^ 2 ≤ 1 := by
  unfold easeRate
  cases ft <;> norm_num

theorem repelNudge_of_not_fires (state : AppState) (isEpic : Bool)
    (repel : Option Vec3) (u c : Vec3)
    (h : ¬RepelFires state isEpic repel c) :
    repelNudge state isEpic repel u c = c := by
  cases repel with
  | none => rfl
  | some rp =>
    simp only [repelNudge]
    rw [if_neg]
    intro hc
    exact h ⟨rp, rfl, hc.1, hc.2.1, hc.2.2⟩

/-- C2 (amended): on any tick on which the repulsion nudge does not fire for
the particle (no repulsion point, or mode ≠ TREE, or the epic sequence is
active, or the point is at least 18 units away), the squared distance from the
particle's position to its resolved target does not increase. -/
theorem particleTick_dist_nonincreasing (state : AppState) (isEpic : Bool)
    (epicTime : ℚ) (tt : Option TextTargets) (repel : Option Vec3) (u : Vec3)
    (ptype : PType) (i : ℕ) (p : Particle) (t : Vec3)
    (hnr : ¬RepelFires state isEpic repel p.currentPos)
    (ht : resolveTarget state (formingText isEpic epicTime) tt ptype i p = some t) :
    dist2 (particleTick state isEpic epicTime tt repel u ptype i p) t
      ≤ dist2 p.currentPos t := by
  simp only [particleTick]
  rw [ht, repelNudge_of_not_fires state isEpic repel u p.currentPos hnr,
    dist2_lerpV]
  calc (1 - easeRate (formingText isEpic epicTime)) ^ 2 * dist2 p.currentPos t
      ≤ 1 * dist2 p.currentPos t := by
        exact mul_le_mul_of_nonneg_right (easeRate_sq_le_one _) (dist2_nonneg _ _)
    _ = dist2 p.currentPos t := one_mul _

/-- Witness for `particleTick_dist_nonincreasing` at a concrete input. -/
theorem particleTick_dist_nonincreasing_witness :
    dist2 (particleTick AppState.TREE false 0 none none vzero PType.gold 0
        ⟨some ⟨1, 0, 0⟩, some ⟨2, 0, 0⟩, ⟨5, 0, 0⟩⟩) ⟨1, 0, 0⟩
      ≤ dist2 (⟨5, 0, 0⟩ : Vec3) ⟨1, 0, 0⟩ := by
  exact particleTick_dist_nonincreasing AppState.TREE false 0 none none vzero
    PType.gold 0 ⟨some ⟨1, 0, 0⟩, some ⟨2, 0, 0⟩, ⟨5, 0, 0⟩⟩ ⟨1, 0, 0⟩
    (by rintro ⟨rp, hrp, -⟩; exact Option.noConfusion hrp) rfl

/-- C2 (counterexample): with an active repulsion point the claimed monotone
convergence fails.  The particle sits exactly at its TREE target, the repulsion
point is 1 unit away (inside the 18-unit radius, unit direction `(1,0,0)`
exactly), and after the tick the squared distance to the resolved target has
strictly increased (0 before, (19/100)² after). -/
theorem particleTick_dist_can_increase :
    UnitDirOf ⟨1, 0, 0⟩
        (vsub (⟨0, 0, 0⟩ : Vec3) ⟨-1, 0, 0⟩) ∧
    RepelFires AppState.TREE false (some ⟨-1, 0, 0⟩) (⟨0, 0, 0⟩ : Vec3) ∧
    resolveTarget AppState.TREE (formingText false 0) none PType.gold 0
        ⟨some ⟨0, 0, 0⟩, some ⟨9, 9, 9⟩, ⟨0, 0, 0⟩⟩ = some ⟨0, 0, 0⟩ ∧
    dist2 (particleTick AppState.TREE false 0 none (some ⟨-1, 0, 0⟩) ⟨1, 0, 0⟩
        PType.gold 0 ⟨some ⟨0, 0, 0⟩, some ⟨9, 9, 9⟩, ⟨0, 0, 0⟩⟩) ⟨0, 0, 0⟩
      > dist2 (⟨0, 0, 0⟩ : Vec3) ⟨0, 0, 0⟩ := by
  refine ⟨Or.inr ⟨by norm_num [dist2, vzero], 1,
      by norm_num, by norm_num [vsub, smul, Vec3.mk.injEq]⟩,
    ⟨⟨-1, 0, 0⟩, rfl, rfl, rfl, by norm_num [dist2]⟩, rfl, ?_⟩
  norm_num [particleTick, resolveTarget, modeTarget, repelNudge, formingText,
    easeRate, lerpV, vadd, vsub, smul, dist2]

/-- C8 (confirmed): if the resolved target is `none` (the `if (!target)`
guard of `updateInstancedSystem`), the easing step leaves the particle where
the (possibly applied) repulsion nudge put it — in particular, with no
repulsion input the position is completely unchanged — and the value written
to the instance matrix is the total `Vec3` returned by `particleTick`, never
an absent value. -/
theorem particleTick_none_target_keeps_position (state : AppState)
    (isEpic : Bool) (epicTime : ℚ) (tt : Option TextTargets)
    (repel : Option Vec3) (u : Vec3) (ptype : PType) (i : ℕ) (p : Particle)
    (ht : resolveTarget state (formingText isEpic epicTime) tt ptype i p = none) :
    particleTick state isEpic epicTime tt repel u ptype i p
        = repelNudge state isEpic repel u p.currentPos ∧
    particleTick state isEpic epicTime tt none u ptype i p = p.currentPos := by
  constructor
  · simp only [particleTick]
    rw [ht]
  · simp only [particleTick]
    rw [ht]
    rfl

/-- Witness for `particleTick_none_target_keeps_position`: a particle whose
`treePos` field is absent, in TREE mode, keeps its position. -/
theorem particleTick_none_target_keeps_position_witness :
    particleTick AppState.TREE false 0 none none vzero PType.gold 0
        ⟨none, some ⟨9, 9, 9⟩, ⟨3, 4, 5⟩⟩ = ⟨3, 4, 5⟩ := by
  exact (particleTick_none_target_keeps_position AppState.TREE false 0 none
    none vzero PType.gold 0 ⟨none, some ⟨9, 9, 9⟩, ⟨3, 4, 5⟩⟩ rfl).2

/-- C5 (counterexample): at epic elapsed time exactly 4 s the code is NOT in
its text-formation state (`epicTime > 4.0` is strict), so a gold particle
with a ready glyph cloud still resolves its target to the mode-selected
formation position and eases at rate 0.05 — not to glyph point 0 at rate 0.08
as the claimed closed-left interval [4 s, 16 s) would require. -/
theorem textFormation_boundary_counterexample :
    formingText true 4 = false ∧
    resolveTarget AppState.TREE (formingText true 4)
        (some ⟨[⟨1, 2, 3⟩], [⟨4, 5, 6⟩]⟩) PType.gold 0
        ⟨some ⟨0, 0, 0⟩, some ⟨9, 9, 9⟩, ⟨0, 0, 0⟩⟩ = some ⟨0, 0, 0⟩ ∧
    resolveTarget AppState.TREE (formingText true 4)
        (some ⟨[⟨1, 2, 3⟩], [⟨4, 5, 6⟩]⟩) PType.gold 0
        ⟨some ⟨0, 0, 0⟩, some ⟨9, 9, 9⟩, ⟨0, 0, 0⟩⟩ ≠ some ⟨1, 2, 3⟩ ∧
    easeRate (formingText true 4) = 1 / 20 ∧ (1 / 20 : ℚ) ≠ 2 / 25 := by
  have hft : formingText true 4 = false := by
    norm_num [formingText]
  refine ⟨hft, ?_, ?_, ?_, by norm_num⟩ <;>
    simp [resolveTarget, modeTarget, easeRate, hft, Vec3.mk.injEq]

/-- C5 (amended): during the open interval (4 s, 16 s) of the epic sequence a
particle of a participating group (gold, silver, gem) with a non-empty glyph
cloud resolves its target to glyph point `i mod n` of its group's cloud
(silver and gem both read the silver cloud) and eases toward it at rate 0.08;
whenever the text-formation flag is off, every particle resolves its target to
the mode-selected formation position and eases at rate 0.05. -/
theorem textFormation_targets_and_rates :
    (∀ (state : AppState) (time : ℚ) (tts : TextTargets) (pt : PType)
        (i : ℕ) (p : Particle),
      4 < time → time < 16 → participatesInText pt = true →
      0 < (glyphCloud tts pt).length →
      resolveTarget state (formingText true time) (some tts) pt i p
          = (glyphCloud tts pt).get? (i % (glyphCloud tts pt).length) ∧
      easeRate (formingText true time) = 2 / 25 ∧
      ∀ (u gp : Vec3),
        (glyphCloud tts pt).get? (i % (glyphCloud tts pt).length) = some gp →
        particleTick state true time (some tts) none u pt i p
            = lerpV p.currentPos gp (2 / 25)) ∧
    (∀ (state : AppState) (e : Bool) (time : ℚ) (tt : Option TextTargets)
        (pt : PType) (i : ℕ) (p : Particle),
      formingText e time = false →
      resolveTarget state (formingText e time) tt pt i p = modeTarget state p ∧
      easeRate (formingText e time) = 1 / 20) := by
  constructor
  · intro state time tts pt i p h4 h16 hpart hlen
    have hft : formingText true time = true := by
      simp only [formingText, Bool.true_and, Bool.and_eq_true, decide_eq_true_eq]
      exact ⟨h4, h16⟩
    have hrate : easeRate (formingText true time) = 2 / 25 := by
      rw [hft]; rfl
    have htgt : resolveTarget state (formingText true time) (some tts) pt i p
        = (glyphCloud tts pt).get? (i % (glyphCloud tts pt).length) := by
      cases pt <;>
        simp_all [resolveTarget, participatesInText, glyphCloud, hft]
    refine ⟨htgt, hrate, ?_⟩
    intro u gp hgp
    simp only [particleTick]
    rw [htgt, hgp, hrate]
    rfl
  · intro state e time tt pt i p hft
    refine ⟨?_, by rw [easeRate, hft]; rfl⟩
    cases tt with
    | none => rfl
    | some tts =>
      simp [resolveTarget, hft]

/-- Witness for `textFormation_targets_and_rates` at concrete inputs: a gem
particle at time 10 s reads silver glyph point `5 mod 2 = 1`; the same
particle at time 2 s reads its mode target at rate 0.05. -/
theorem textFormation_targets_and_rates_witness :
    (resolveTarget AppState.SCATTER (formingText true 10)
        (some ⟨[⟨1, 2, 3⟩], [⟨4, 5, 6⟩, ⟨7, 8, 9⟩]⟩) PType.gem 5
        ⟨some ⟨0, 0, 0⟩, some ⟨9, 9, 9⟩, ⟨0, 0, 0⟩⟩ = some ⟨7, 8, 9⟩ ∧
      easeRate (formingText true 10) = 2 / 25) ∧
    (resolveTarget AppState.SCATTER (formingText true 2)
        (some ⟨[⟨1, 2, 3⟩], [⟨4, 5, 6⟩, ⟨7, 8, 9⟩]⟩) PType.gem 5
        ⟨some ⟨0, 0, 0⟩, some ⟨9, 9, 9⟩, ⟨0, 0, 0⟩⟩ = some ⟨9, 9, 9⟩ ∧
      easeRate (formingText true 2) = 1 / 20) := by
  have hoff : formingText true 2 = false := by norm_num [formingText]
  have h1 := (textFormation_targets_and_rates.1 AppState.SCATTER 10
    ⟨[⟨1, 2, 3⟩], [⟨4, 5, 6⟩, ⟨7, 8, 9⟩]⟩ PType.gem 5
    ⟨some ⟨0, 0, 0⟩, some ⟨9, 9, 9⟩, ⟨0, 0, 0⟩⟩
    (by norm_num) (by norm_num) rfl (by simp [glyphCloud]))
  have h2 := (textFormation_targets_and_rates.2 AppState.SCATTER true 2
    (some ⟨[⟨1, 2, 3⟩], [⟨4, 5, 6⟩, ⟨7, 8, 9⟩]⟩) PType.gem 5
    ⟨some ⟨0, 0, 0⟩, some ⟨9, 9, 9⟩, ⟨0, 0, 0⟩⟩ hoff)
  refine ⟨⟨?_, h1.2.1⟩, ⟨?_, h2.2⟩⟩
  · rw [h1.1]; rfl
  · rw [h2.1]; rfl

/-! ## Interaction and orchestration state machine

Shallow embedding of the mutable refs of `JewelTreeScene` and the handlers
that mutate them: `triggerEpicSequence`, the gesture-classification part of
`predictWebcam`, `handleTouch`, and the state-machine-relevant portion of the
`animate` loop (star-hold progression, epic timer advance and completion).
Purely visual per-frame work (instanced-matrix writes, bloom, group rotation
damping and wrap-around, firework spawning) reads but never writes the fields
modelled here, so it is omitted.  Calls to the `setStatusText` sink are
recorded twice: `statusText` is the last value written (React's
last-write-wins within a tick) and `statusLog` is the full call sequence. -/

/-- `InputMode` of `src/App.tsx`. -/
inductive InputMode
  | touch
  | camera
deriving DecidableEq, Repr

/-- The claim-relevant mutable state of the scene component (one field per
ref / React state cell of the source). -/
structure SysState where
  appState : AppState
  statusText : String
  statusLog : List String
  blessingCount : ℕ
  audioCueCount : ℕ
  bellCount : ℕ
  jingleCount : ℕ
  holdProgress : ℚ
  shakeIntensity : ℚ
  isGoldMode : Bool
  goldModeTimer : ℚ
  rotationVelocity : ℚ
  groupRotY : ℚ
  cameraZ : ℚ
  isEpic : Bool
  epicTimer : ℚ
  hasTriggeredEpic : Bool
  rainbowStarMode : Bool
  isPinching : Bool
  victoryTimer : ℚ
  threeTimer : ℚ
  zoomTargetIndex : ℤ
  isHoldingStar : Bool
  starHoldStart : ℚ
  lastPredictionTime : ℚ
  lastVideoTime : ℚ
  repulsionPoint : Option Vec3
  touches : ℕ
  startTime : ℚ
  lastTapTime : ℚ
  startCount : ℕ
deriving DecidableEq, Repr

/-- A call to the `setStatusText` sink. -/
def setStatus (m : String) (s : SysState) : SysState :=
  { s with statusText := m, statusLog := s.statusLog ++ [m] }

/-- `triggerEpicSequence` (lines 230–250): guarded by the one-shot latch;
on success sets the epic flags, resets `elapsed`, plays the audio cue
(`playWeWishYou`, counted by `audioCueCount`), increments the blessing
counter, clears hold progress, and fires the shake impulse. -/
def triggerEpicSequence (s : SysState) : SysState :=
  if s.hasTriggeredEpic then s
  else
    setStatus "🌟 圣诞快乐! 🌟"
      { s with
        hasTriggeredEpic := true
        isEpic := true
        epicTimer := 0
        rainbowStarMode := true
        audioCueCount := s.audioCueCount + 1
        blessingCount := s.blessingCount + 1
        holdProgress := 0
        shakeIntensity := 3 }

/-- One observed hand: the per-finger extension predicates already evaluated
(`isExt(tip, pip)`), the thumb-tip-to-index-tip distance, the palm x
coordinate (`landmarks[9].x`) and the hand size (`dist(0, 12)`). -/
structure Hand where
  thumbOpen : Bool
  indexOpen : Bool
  midOpen : Bool
  ringOpen : Bool
  pinkyOpen : Bool
  pinchDist : ℚ
  palmX : ℚ
  handSize : ℚ
deriving DecidableEq, Repr

def extendedCount (h : Hand) : ℕ :=
  (cond h.thumbOpen 1 0) + (cond h.indexOpen 1 0) + (cond h.midOpen 1 0) +
    (cond h.ringOpen 1 0) + (cond h.pinkyOpen 1 0)

/-- `const isFist = !indexOpen && !midOpen && !ringOpen && !pinkyOpen;` -/
def isFist (h : Hand) : Bool :=
  !h.indexOpen && !h.midOpen && !h.ringOpen && !h.pinkyOpen

/-- `const isOpen = extendedCount === 5;` -/
def isOpenHand (h : Hand) : Bool := extendedCount h == 5

/-- `const isPointing = indexOpen && !midOpen && !ringOpen && !pinkyOpen;` -/
def isPointing (h : Hand) : Bool :=
  h.indexOpen && !h.midOpen && !h.ringOpen && !h.pinkyOpen

/-- `const isVictory = indexOpen && midOpen && !ringOpen && !pinkyOpen;` -/
def isVictory (h : Hand) : Bool :=
  h.indexOpen && h.midOpen && !h.ringOpen && !h.pinkyOpen

/-- `const isThreeFinger = indexOpen && midOpen && ringOpen && !pinkyOpen;` -/
def isThreeFinger (h : Hand) : Bool :=
  h.indexOpen && h.midOpen && h.ringOpen && !h.pinkyOpen

/-- `const isPinch = pinchDist < 0.05;` -/
def isPinch (h : Hand) : Bool := decide (h.pinchDist < 1 / 20)

/-- The tag the `if/else` chain of `predictWebcam` settles on (the `Point`
block is independent of this chain and handled by `pointBlock`). -/
inductive GTag
  | fist
  | openHand
  | pinch
  | victory
  | three
  | tracing
deriving DecidableEq, Repr

def chainClassifies (h : Hand) : GTag :=
  if isFist h then GTag.fist
  else if isOpenHand h then GTag.openHand
  else if isPinch h then GTag.pinch
  else if isVictory h then GTag.victory
  else if isThreeFinger h then GTag.three
  else GTag.tracing

/-- `THREE.MathUtils.lerp`. -/
def lerpQ (a b r : ℚ) : ℚ := a + (b - a) * r

/-- `Math.max(lo, Math.min(hi, v))`. -/
def clampQ (lo hi v : ℚ) : ℚ := max lo (min hi v)

/-- The independent `if (isPointing)` block: camera dolly toward
`clamp(30, 220, 250 − handSize·600)` at lerp factor 0.05. -/
def pointBlock (h : Hand) (s : SysState) : SysState :=
  if isPointing h then
    { s with cameraZ := lerpQ s.cameraZ (clampQ 30 220 (250 - h.handSize * 600)) (1 / 20) }
  else s

/-- The status-string prefix accumulated before the chain runs. -/
def statusPrefix (h : Hand) : String :=
  if isPointing h then "AI: ☝️ Point (Zoom)" else "AI: "

/-- The fist branch's spin: palm deviation from centre, dead zone 0.05. -/
def fistSpin (h : Hand) (s : SysState) : SysState :=
  let deviation := h.palmX - 1 / 2
  if 1 / 20 < |deviation| then
    { s with
      rotationVelocity := -deviation * (1 / 5)
      groupRotY := s.groupRotY + -deviation * (1 / 5) }
  else s

/-- The gesture `if/else` chain of `predictWebcam` (lines 1062–1119), given
the status prefix `st0` and the state after the `Point` block.  `photoCount`
is `photoMeshesRef.current.length` and `rand` the `Math.random()` draw of the
pinch branch.  The trailing `setStatusText(status)` of the source is the
final `setStatus` of every branch. -/
def chainStep (h : Hand) (photoCount : ℕ) (rand : ℚ) (st0 : String)
    (s : SysState) : SysState :=
  if isFist h then
    let s1 := if s.appState ≠ AppState.TREE then { s with appState := AppState.TREE } else s
    setStatus (st0 ++ "✊ Fist (Spin)") (fistSpin h s1)
  else if isOpenHand h then
    let s1 := if s.appState ≠ AppState.SCATTER then { s with appState := AppState.SCATTER } else s
    setStatus (st0 ++ "🖐 Open (Scatter)") s1
  else if isPinch h then
    let s1 :=
      if s.isPinching then s
      else if 0 < photoCount then
        setStatus "AI: 🎁 随机展示照片!"
          { s with
            bellCount := s.bellCount + 1
            zoomTargetIndex := ⌊rand * photoCount⌋
            appState := AppState.ZOOM }
      else setStatus "AI: ⚠️ 空空如也 (请先插入照片)" s
    setStatus (st0 ++ "👌 Pinch (Select)") { s1 with isPinching := true }
  else if isVictory h then
    let shown := toString (⌊s.victoryTimer⌋)
    let s1 := { s with victoryTimer := s.victoryTimer + 1 / 10 }
    let s2 :=
      if 2 < s1.victoryTimer ∧ s1.isEpic = false then
        { triggerEpicSequence s1 with victoryTimer := 0 }
      else s1
    setStatus (st0 ++ ("✌️ Victory (" ++ shown ++ "s)")) s2
  else if isThreeFinger h then
    let shown := toString (⌊s.threeTimer⌋)
    let s1 := { s with threeTimer := s.threeTimer + 1 / 10 }
    let s2 :=
      if 3 < s1.threeTimer then
        { s1 with
          isGoldMode := true
          goldModeTimer := 8
          jingleCount := s1.jingleCount + 1
          threeTimer := 0 }
      else s1
    setStatus (st0 ++ ("🤟 Gold (" ++ shown ++ "s)")) s2
  else
    setStatus (st0 ++ "Tracing...")
      { s with isPinching := false, victoryTimer := 0, threeTimer := 0 }

/-- One classification of a detected hand: the `Point` block, then the chain,
then the trailing status write (folded into `chainStep`). -/
def classifyStep (h : Hand) (photoCount : ℕ) (rand : ℚ) (s : SysState) : SysState :=
  chainStep h photoCount rand (statusPrefix h) (pointBlock h s)

/-- One call to `predictWebcam`: `ready` bundles the early-out conditions
(landmarker loaded, camera input mode, video readyState), then the 100 ms
rate gate, then the new-video-frame gate, then either the "searching" status
(no hand) or one classification. -/
structure PredictInput where
  ready : Bool
  now : ℚ
  videoTime : ℚ
  hand : Option Hand
  photoCount : ℕ
  rand : ℚ
deriving DecidableEq, Repr

def predictWebcam (inp : PredictInput) (s : SysState) : SysState :=
  if inp.ready = false then s
  else if inp.now - s.lastPredictionTime < 100 then s
  else if inp.videoTime = s.lastVideoTime then
    { s with lastPredictionTime := inp.now }
  else
    match inp.hand with
    | none =>
      setStatus "AI: 寻找手掌..."
        { s with lastPredictionTime := inp.now, lastVideoTime := inp.videoTime }
    | some h =>
      classifyStep h inp.photoCount inp.rand
        { s with lastPredictionTime := inp.now, lastVideoTime := inp.videoTime }

/-- `handleTouch(e, 'start')`: records the contact, and when a single pointer
ray-hits the star mesh (`starHit`), arms the star hold. -/
def handleTouchStart (mode : InputMode) (now : ℚ) (count : ℕ) (starHit : Bool)
    (s : SysState) : SysState :=
  if mode = InputMode.camera then s
  else
    let s1 := { s with
      touches := count, startTime := now, startCount := count, rotationVelocity := 0 }
    if count = 1 ∧ starHit = true then
      { s1 with isHoldingStar := true, starHoldStart := now }
    else s1

/-- `handleTouch(e, 'move')`: one pointer rotates by `dx` (dead zone of one
pixel) and plants the repulsion point at the ray-plane `intersection`; two
pointers dolly the camera by `dDist` (clamped to [20, 200]) and rotate by
`dAngle`. -/
def handleTouchMove (mode : InputMode) (count : ℕ) (dx : ℚ)
    (intersection : Option Vec3) (dDist dAngle : ℚ) (s : SysState) : SysState :=
  if mode = InputMode.camera then s
  else
    let s1 := { s with touches := count }
    if count = 1 then
      let s2 := if 1 < |dx| then
          { s1 with rotationVelocity := dx * (1 / 200), groupRotY := s1.groupRotY + dx * (1 / 200) }
        else s1
      { s2 with repulsionPoint := intersection }
    else if count = 2 then
      { s1 with
        cameraZ := clampQ 20 200 (s1.cameraZ - dDist * (3 / 20))
        groupRotY := s1.groupRotY + dAngle * 2
        rotationVelocity := dAngle * (1 / 2) }
    else s1

/-- `handleTouch(e, 'end')`: clears repulsion and star hold; a fast release
is a tap (double-tap shake, or single-tap bell + photo select via the raycast
outcome `photoHit`) or, with two start pointers, the formation toggle; five
remaining touches fire gold mode. -/
def handleTouchEnd (mode : InputMode) (now : ℚ) (endTouchCount : ℕ)
    (photoHit : Option ℤ) (s : SysState) : SysState :=
  if mode = InputMode.camera then s
  else
    let s1 := { s with
      touches := endTouchCount, repulsionPoint := none,
      isHoldingStar := false, holdProgress := 0 }
    let s2 :=
      if now - s1.startTime < 300 then
        if s1.startCount = 1 then
          let s3 :=
            if now - s1.lastTapTime < 300 then { s1 with shakeIntensity := 5 }
            else
              let s4 := { s1 with bellCount := s1.bellCount + 1 }
              match photoHit with
              | some idx => { s4 with zoomTargetIndex := idx, appState := AppState.ZOOM }
              | none => s4
          { s3 with lastTapTime := now }
        else if s1.startCount = 2 then
          { s1 with appState :=
              if s1.appState = AppState.TREE then AppState.SCATTER else AppState.TREE }
        else s1
      else s1
    if endTouchCount = 5 then
      { s2 with isGoldMode := true, goldModeTimer := 8, jingleCount := s2.jingleCount + 1 }
    else s2

/-- The star-hold block of `animate`: while the star is held in touch mode
and no epic sequence runs, publish the hold progress (capped at 1) and fire
the epic trigger when the 3000 ms hold completes (latch permitting). -/
def starHoldCheck (mode : InputMode) (now : ℚ) (s : SysState) : SysState :=
  if s.isHoldingStar = true ∧ s.isEpic = false then
    if mode = InputMode.touch ∧ 0 < s.starHoldStart then
      let progress := min ((now - s.starHoldStart) / 3000) 1
      let su := { s with holdProgress := progress }
      if 1 ≤ progress ∧ s.hasTriggeredEpic = false then
        triggerEpicSequence su
      else su
    else s
  else s

/-- The epic block of `animate`: advance the timer by 0.016, suppress
rotation velocity, and past 18 s deactivate and force TREE. -/
def epicAdvance (s : SysState) : SysState :=
  if s.isEpic = true then
    let t := s.epicTimer + 2 / 125
    let s2 := { s with epicTimer := t, rotationVelocity := 0 }
    if 18 < t then { s2 with isEpic := false, appState := AppState.TREE }
    else s2
  else s

/-- The state-machine-relevant portion of one `animate` frame (after the
`predictWebcam` call, which is modelled as its own event): star-hold
progression, then the epic timer advance with deactivation and the forced
TREE transition.  Purely visual work of `animate` (beams, shake decay and
bloom, fireworks, auto-rotation) writes none of the fields modelled here. -/
def animateFrame (mode : InputMode) (now : ℚ) (s : SysState) : SysState :=
  epicAdvance (starHoldCheck mode now s)

/-- The events that can reach the scene's state within one lifetime. -/
inductive Ev
  | predict (inp : PredictInput)
  | frame (mode : InputMode) (now : ℚ)
  | touchStart (mode : InputMode) (now : ℚ) (count : ℕ) (starHit : Bool)
  | touchMove (mode : InputMode) (count : ℕ) (dx : ℚ) (intersection : Option Vec3)
      (dDist dAngle : ℚ)
  | touchEnd (mode : InputMode) (now : ℚ) (endTouchCount : ℕ) (photoHit : Option ℤ)
deriving DecidableEq, Repr

def stepEv : Ev → SysState → SysState
  | Ev.predict inp, s => predictWebcam inp s
  | Ev.frame mode now, s => animateFrame mode now s
  | Ev.touchStart mode now count starHit, s => handleTouchStart mode now count starHit s
  | Ev.touchMove mode count dx inter dDist dAngle, s =>
      handleTouchMove mode count dx inter dDist dAngle s
  | Ev.touchEnd mode now c ph, s => handleTouchEnd mode now c ph s

def run (evs : List Ev) (s : SysState) : SysState :=
  evs.foldl (fun a e => stepEv e a) s

/-- The scene's state right after initialization (the initial values of the
refs and of the React state cells feeding them). -/
def initState : SysState where
  appState := AppState.TREE
  statusText := "系统初始化..."
  statusLog := []
  blessingCount := 0
  audioCueCount := 0
  bellCount := 0
  jingleCount := 0
  holdProgress := 0
  shakeIntensity := 0
  isGoldMode := false
  goldModeTimer := 0
  rotationVelocity := 0
  groupRotY := 0
  cameraZ := 110
  isEpic := false
  epicTimer := 0
  hasTriggeredEpic := false
  rainbowStarMode := false
  isPinching := false
  victoryTimer := 0
  threeTimer := 0
  zoomTargetIndex := -1
  isHoldingStar := false
  starHoldStart := 0
  lastPredictionTime := 0
  lastVideoTime := -1
  repulsionPoint := none
  touches := 0
  startTime := 0
  lastTapTime := 0
  startCount := 0

/-! ### Chain-branch characterization lemmas -/

theorem chain_fist_flags {h : Hand} (hc : chainClassifies h = GTag.fist) :
    isFist h = true := by
  unfold chainClassifies at hc
  split_ifs at hc <;> simp_all

theorem chain_open_flags {h : Hand} (hc : chainClassifies h = GTag.openHand) :
    isFist h = false ∧ isOpenHand h = true := by
  unfold chainClassifies at hc
  split_ifs at hc <;> simp_all

theorem chain_pinch_flags {h : Hand} (hc : chainClassifies h = GTag.pinch) :
    isFist h = false ∧ isOpenHand h = false ∧ isPinch h = true := by
  unfold chainClassifies at hc
  split_ifs at hc <;> simp_all

theorem chain_victory_flags {h : Hand} (hc : chainClassifies h = GTag.victory) :
    isFist h = false ∧ isOpenHand h = false ∧ isPinch h = false ∧
      isVictory h = true := by
  unfold chainClassifies at hc
  split_ifs at hc <;> simp_all

theorem chain_three_flags {h : Hand} (hc : chainClassifies h = GTag.three) :
    isFist h = false ∧ isOpenHand h = false ∧ isPinch h = false ∧
      isVictory h = false ∧ isThreeFinger h = true := by
  unfold chainClassifies at hc
  split_ifs at hc <;> simp_all

theorem chain_tracing_flags {h : Hand} (hc : chainClassifies h = GTag.tracing) :
    isFist h = false ∧ isOpenHand h = false ∧ isPinch h = false ∧
      isVictory h = false ∧ isThreeFinger h = false := by
  unfold chainClassifies at hc
  split_ifs at hc <;> simp_all

/-- The `Point` block touches only `cameraZ`. -/
theorem pointBlock_eq (h : Hand) (s : SysState) :
    pointBlock h s = { s with cameraZ := (pointBlock h s).cameraZ } := by
  unfold pointBlock
  split <;> rfl

/-- The fist spin touches only `rotationVelocity` and `groupRotY`. -/
theorem fistSpin_eq (h : Hand) (s : SysState) :
    fistSpin h s = { s with
      rotationVelocity := (fistSpin h s).rotationVelocity
      groupRotY := (fistSpin h s).groupRotY } := by
  simp only [fistSpin]
  split <;> rfl

/-- Fields of one classification of a fist: forces TREE, leaves both
hold-timers, the pinch latch, the epic flags and the counters unchanged. -/
theorem classifyStep_fist (h : Hand) (pc : ℕ) (r : ℚ) (s : SysState)
    (hc : chainClassifies h = GTag.fist) :
    (classifyStep h pc r s).appState = AppState.TREE ∧
    (classifyStep h pc r s).victoryTimer = s.victoryTimer ∧
    (classifyStep h pc r s).threeTimer = s.threeTimer ∧
    (classifyStep h pc r s).isPinching = s.isPinching ∧
    (classifyStep h pc r s).isEpic = s.isEpic ∧
    (classifyStep h pc r s).hasTriggeredEpic = s.hasTriggeredEpic ∧
    (classifyStep h pc r s).blessingCount = s.blessingCount ∧
    (classifyStep h pc r s).audioCueCount = s.audioCueCount ∧
    (classifyStep h pc r s).lastPredictionTime = s.lastPredictionTime ∧
    (classifyStep h pc r s).lastVideoTime = s.lastVideoTime := by
  have hf := chain_fist_flags hc
  rw [classifyStep, pointBlock_eq, chainStep, if_pos hf]
  dsimp only
  rw [fistSpin_eq]
  split_ifs <;> simp_all [setStatus]

theorem ne_true_of_false {b : Bool} (h : b = false) : ¬(b = true) := by
  simp [h]

/-- Fields of one classification of an open hand: forces SCATTER, leaves
both hold-timers, the pinch latch, the epic flags and the counters
unchanged. -/
theorem classifyStep_open (h : Hand) (pc : ℕ) (r : ℚ) (s : SysState)
    (hc : chainClassifies h = GTag.openHand) :
    (classifyStep h pc r s).appState = AppState.SCATTER ∧
    (classifyStep h pc r s).victoryTimer = s.victoryTimer ∧
    (classifyStep h pc r s).threeTimer = s.threeTimer ∧
    (classifyStep h pc r s).isPinching = s.isPinching ∧
    (classifyStep h pc r s).isEpic = s.isEpic ∧
    (classifyStep h pc r s).hasTriggeredEpic = s.hasTriggeredEpic ∧
    (classifyStep h pc r s).blessingCount = s.blessingCount ∧
    (classifyStep h pc r s).audioCueCount = s.audioCueCount ∧
    (classifyStep h pc r s).lastPredictionTime = s.lastPredictionTime ∧
    (classifyStep h pc r s).lastVideoTime = s.lastVideoTime := by
  obtain ⟨hf, ho⟩ := chain_open_flags hc
  rw [classifyStep, pointBlock_eq, chainStep, if_neg (ne_true_of_false hf),
    if_pos ho]
  dsimp only
  split_ifs <;> simp_all [setStatus]

/-- Fields of one classification of a pinch: both hold-timers and the epic
state are untouched; the pinch latch is set; on a rising edge with photos
available the mode becomes ZOOM with a floor-sampled photo index, otherwise
(no photos) the warning status is emitted and mode and index are untouched;
the trailing status write overwrites the branch's own status. -/
theorem classifyStep_pinch (h : Hand) (pc : ℕ) (r : ℚ) (s : SysState)
    (hc : chainClassifies h = GTag.pinch) :
    (classifyStep h pc r s).victoryTimer = s.victoryTimer ∧
    (classifyStep h pc r s).threeTimer = s.threeTimer ∧
    (classifyStep h pc r s).isPinching = true ∧
    (classifyStep h pc r s).isEpic = s.isEpic ∧
    (classifyStep h pc r s).hasTriggeredEpic = s.hasTriggeredEpic ∧
    (classifyStep h pc r s).blessingCount = s.blessingCount ∧
    (classifyStep h pc r s).audioCueCount = s.audioCueCount ∧
    (classifyStep h pc r s).appState =
      (if s.isPinching = false ∧ 0 < pc then AppState.ZOOM else s.appState) ∧
    (classifyStep h pc r s).zoomTargetIndex =
      (if s.isPinching = false ∧ 0 < pc then ⌊r * (pc : ℚ)⌋ else s.zoomTargetIndex) ∧
    (classifyStep h pc r s).statusText = statusPrefix h ++ "👌 Pinch (Select)" ∧
    (classifyStep h pc r s).statusLog =
      s.statusLog ++
        (if s.isPinching = true then []
         else if 0 < pc then ["AI: 🎁 随机展示照片!"]
         else ["AI: ⚠️ 空空如也 (请先插入照片)"]) ++
        [statusPrefix h ++ "👌 Pinch (Select)"] ∧
    (classifyStep h pc r s).lastPredictionTime = s.lastPredictionTime ∧
    (classifyStep h pc r s).lastVideoTime = s.lastVideoTime := by
  obtain ⟨hf, ho, hp⟩ := chain_pinch_flags hc
  rw [classifyStep, pointBlock_eq, chainStep, if_neg (ne_true_of_false hf),
    if_neg (ne_true_of_false ho), if_pos hp]
  dsimp only
  split_ifs <;> simp_all [setStatus]

/-- Fields of one classification of a victory: the victory timer advances by
0.1 (resetting to 0 when it crosses 2.0 with the epic sequence inactive, in
which case the epic trigger fires, latch permitting); nothing else of the
gesture state or the display mode moves. -/
theorem classifyStep_victory (h : Hand) (pc : ℕ) (r : ℚ) (s : SysState)
    (hc : chainClassifies h = GTag.victory) :
    (classifyStep h pc r s).victoryTimer =
      (if 2 < s.victoryTimer + 1 / 10 ∧ s.isEpic = false then 0
       else s.victoryTimer + 1 / 10) ∧
    (classifyStep h pc r s).threeTimer = s.threeTimer ∧
    (classifyStep h pc r s).isPinching = s.isPinching ∧
    (classifyStep h pc r s).appState = s.appState ∧
    (classifyStep h pc r s).isEpic =
      (if 2 < s.victoryTimer + 1 / 10 ∧ s.isEpic = false then
        (if s.hasTriggeredEpic = true then s.isEpic else true)
       else s.isEpic) ∧
    (classifyStep h pc r s).hasTriggeredEpic =
      (if 2 < s.victoryTimer + 1 / 10 ∧ s.isEpic = false then true
       else s.hasTriggeredEpic) ∧
    (classifyStep h pc r s).blessingCount =
      (if 2 < s.victoryTimer + 1 / 10 ∧ s.isEpic = false then
        (if s.hasTriggeredEpic = true then s.blessingCount
         else s.blessingCount + 1)
       else s.blessingCount) ∧
    (classifyStep h pc r s).audioCueCount =
      (if 2 < s.victoryTimer + 1 / 10 ∧ s.isEpic = false then
        (if s.hasTriggeredEpic = true then s.audioCueCount
         else s.audioCueCount + 1)
       else s.audioCueCount) ∧
    (classifyStep h pc r s).lastPredictionTime = s.lastPredictionTime ∧
    (classifyStep h pc r s).lastVideoTime = s.lastVideoTime := by
  obtain ⟨hf, ho, hp, hv⟩ := chain_victory_flags hc
  rw [classifyStep, pointBlock_eq, chainStep, if_neg (ne_true_of_false hf),
    if_neg (ne_true_of_false ho), if_neg (ne_true_of_false hp), if_pos hv]
  dsimp only
  split_ifs <;> simp_all [setStatus, triggerEpicSequence]

/-- Fields of one classification of a three-finger gesture: the victory
timer, pinch latch, display mode and epic state are untouched. -/
theorem classifyStep_three (h : Hand) (pc : ℕ) (r : ℚ) (s : SysState)
    (hc : chainClassifies h = GTag.three) :
    (classifyStep h pc r s).victoryTimer = s.victoryTimer ∧
    (classifyStep h pc r s).isPinching = s.isPinching ∧
    (classifyStep h pc r s).appState = s.appState ∧
    (classifyStep h pc r s).isEpic = s.isEpic ∧
    (classifyStep h pc r s).hasTriggeredEpic = s.hasTriggeredEpic ∧
    (classifyStep h pc r s).blessingCount = s.blessingCount ∧
    (classifyStep h pc r s).audioCueCount = s.audioCueCount ∧
    (classifyStep h pc r s).lastPredictionTime = s.lastPredictionTime ∧
    (classifyStep h pc r s).lastVideoTime = s.lastVideoTime := by
  obtain ⟨hf, ho, hp, hv, h3⟩ := chain_three_flags hc
  rw [classifyStep, pointBlock_eq, chainStep, if_neg (ne_true_of_false hf),
    if_neg (ne_true_of_false ho), if_neg (ne_true_of_false hp),
    if_neg (ne_true_of_false hv), if_pos h3]
  dsimp only
  split_ifs <;> simp_all [setStatus]

/-- Fields of one tracing classification (the final `else`): both
hold-timers and the pinch latch are reset; mode and epic state untouched. -/
theorem classifyStep_tracing (h : Hand) (pc : ℕ) (r : ℚ) (s : SysState)
    (hc : chainClassifies h = GTag.tracing) :
    (classifyStep h pc r s).victoryTimer = 0 ∧
    (classifyStep h pc r s).threeTimer = 0 ∧
    (classifyStep h pc r s).isPinching = false ∧
    (classifyStep h pc r s).appState = s.appState ∧
    (classifyStep h pc r s).isEpic = s.isEpic ∧
    (classifyStep h pc r s).hasTriggeredEpic = s.hasTriggeredEpic ∧
    (classifyStep h pc r s).blessingCount = s.blessingCount ∧
    (classifyStep h pc r s).audioCueCount = s.audioCueCount ∧
    (classifyStep h pc r s).lastPredictionTime = s.lastPredictionTime ∧
    (classifyStep h pc r s).lastVideoTime = s.lastVideoTime := by
  obtain ⟨hf, ho, hp, hv, h3⟩ := chain_tracing_flags hc
  rw [classifyStep, pointBlock_eq, chainStep, if_neg (ne_true_of_false hf),
    if_neg (ne_true_of_false ho), if_neg (ne_true_of_false hp),
    if_neg (ne_true_of_false hv), if_neg (ne_true_of_false h3)]
  simp [setStatus]

/-! ### Concrete hands for the five chain outcomes -/

/-- Index and middle extended, ring and pinky curled, no pinch. -/
def victoryHand : Hand := ⟨false, true, true, false, false, 1, 1 / 2, 0⟩

/-- All four non-thumb fingers curled. -/
def fistHand : Hand := ⟨false, false, false, false, false, 1, 1 / 2, 0⟩

/-- All five digits extended. -/
def openAllHand : Hand := ⟨true, true, true, true, true, 1, 1 / 2, 0⟩

/-- Four fingers extended (count 4, so not "open"), thumb-index distance
0.01 < 0.05. -/
def pinchHand : Hand := ⟨false, true, true, true, true, 1 / 100, 1 / 2, 0⟩

/-- Index only (a pointing hand): matched by none of the five chain
predicates, so the chain falls through to tracing. -/
def tracingHand : Hand := ⟨false, true, false, false, false, 1, 1 / 2, 0⟩

theorem chainClassifies_victoryHand :
    chainClassifies victoryHand = GTag.victory := by
  norm_num [chainClassifies, isFist, isOpenHand, isPinch, isVictory,
    victoryHand, extendedCount]

theorem chainClassifies_fistHand : chainClassifies fistHand = GTag.fist := by
  norm_num [chainClassifies, isFist, fistHand]

theorem chainClassifies_openAllHand :
    chainClassifies openAllHand = GTag.openHand := by
  norm_num [chainClassifies, isFist, isOpenHand, openAllHand, extendedCount]

theorem chainClassifies_pinchHand : chainClassifies pinchHand = GTag.pinch := by
  norm_num [chainClassifies, isFist, isOpenHand, isPinch, pinchHand,
    extendedCount]

theorem chainClassifies_tracingHand :
    chainClassifies tracingHand = GTag.tracing := by
  norm_num [chainClassifies, isFist, isOpenHand, isPinch, isVictory,
    isThreeFinger, tracingHand, extendedCount]

/-- C3 (counterexample): a victory tick followed by a fist tick — the
classified gesture changes, yet `victoryTimer` keeps the accumulated 0.1
instead of being reset to zero (only the tracing `else` resets timers). -/
theorem timers_not_reset_on_gesture_change :
    chainClassifies victoryHand = GTag.victory ∧
    chainClassifies fistHand = GTag.fist ∧
    (classifyStep victoryHand 0 0 initState).victoryTimer = 1 / 10 ∧
    (classifyStep fistHand 0 0
        (classifyStep victoryHand 0 0 initState)).victoryTimer = 1 / 10 ∧
    ¬((classifyStep fistHand 0 0
        (classifyStep victoryHand 0 0 initState)).victoryTimer = 0) := by
  have h1 :=
    classifyStep_victory victoryHand 0 0 initState chainClassifies_victoryHand
  have hvt : (classifyStep victoryHand 0 0 initState).victoryTimer = 1 / 10 := by
    rw [h1.1]
    norm_num [initState]
  have h2 := classifyStep_fist fistHand 0 0
    (classifyStep victoryHand 0 0 initState) chainClassifies_fistHand
  refine ⟨chainClassifies_victoryHand, chainClassifies_fistHand, hvt, ?_, ?_⟩
  · rw [h2.2.1, hvt]
  · rw [h2.2.1, hvt]
    norm_num

/-- C3 (amended): the two hold-timers are reset to zero exactly by ticks
whose chain classification is tracing; a tick classified fist, open-hand or
pinch leaves both timers unchanged (so a victory → fist transition keeps the
accumulated victoryTimer), and a victory tick leaves threeTimer unchanged. -/
theorem timers_reset_only_on_tracing :
    (∀ (h : Hand) (pc : ℕ) (r : ℚ) (s : SysState),
      chainClassifies h = GTag.fist ∨ chainClassifies h = GTag.openHand ∨
        chainClassifies h = GTag.pinch →
      (classifyStep h pc r s).victoryTimer = s.victoryTimer ∧
      (classifyStep h pc r s).threeTimer = s.threeTimer) ∧
    (∀ (h : Hand) (pc : ℕ) (r : ℚ) (s : SysState),
      chainClassifies h = GTag.victory →
      (classifyStep h pc r s).threeTimer = s.threeTimer) ∧
    (∀ (h : Hand) (pc : ℕ) (r : ℚ) (s : SysState),
      chainClassifies h = GTag.tracing →
      (classifyStep h pc r s).victoryTimer = 0 ∧
      (classifyStep h pc r s).threeTimer = 0) := by
  refine ⟨?_, ?_, ?_⟩
  · intro h pc r s hc
    rcases hc with hc | hc | hc
    · have := classifyStep_fist h pc r s hc
      exact ⟨this.2.1, this.2.2.1⟩
    · have := classifyStep_open h pc r s hc
      exact ⟨this.2.1, this.2.2.1⟩
    · have := classifyStep_pinch h pc r s hc
      exact ⟨this.1, this.2.1⟩
  · intro h pc r s hc
    exact (classifyStep_victory h pc r s hc).2.1
  · intro h pc r s hc
    have := classifyStep_tracing h pc r s hc
    exact ⟨this.1, this.2.1⟩

/-- Witness for `timers_reset_only_on_tracing` at concrete hands and the
initial state. -/
theorem timers_reset_only_on_tracing_witness :
    (classifyStep fistHand 0 0 initState).victoryTimer
        = initState.victoryTimer ∧
    (classifyStep victoryHand 0 0 initState).threeTimer
        = initState.threeTimer ∧
    (classifyStep tracingHand 0 0 initState).victoryTimer = 0 :=
  ⟨(timers_reset_only_on_tracing.1 fistHand 0 0 initState
      (Or.inl chainClassifies_fistHand)).1,
    timers_reset_only_on_tracing.2.1 victoryHand 0 0 initState
      chainClassifies_victoryHand,
    (timers_reset_only_on_tracing.2.2 tracingHand 0 0 initState
      chainClassifies_tracingHand).1⟩

/-! ### Alternating classification sequences (C7) -/

/-- A sequence of classification ticks, each one call of `classifyStep`
(the photo list and random draw are irrelevant to victory/tracing ticks). -/
def runGestures (L : List Hand) (s : SysState) : SysState :=
  L.foldl (fun a h => classifyStep h 0 0 a) s

/-- Strictly alternating victory/tracing classification sequences; the Bool
says whether the next tick must classify as victory. -/
inductive AltVT : Bool → List Hand → Prop
  | nil (b : Bool) : AltVT b []
  | vic (h : Hand) (L : List Hand) (hc : chainClassifies h = GTag.victory)
      (ht : AltVT false L) : AltVT true (h :: L)
  | tra (h : Hand) (L : List Hand) (hc : chainClassifies h = GTag.tracing)
      (hv : AltVT true L) : AltVT false (h :: L)

theorem altVT_timer_bound_aux :
    ∀ (b : Bool) (L : List Hand), AltVT b L →
    ∀ s : SysState, (b = true → s.victoryTimer = 0) →
    s.victoryTimer ≤ 1 / 10 →
    ∀ L1 L2, L = L1 ++ L2 → (runGestures L1 s).victoryTimer ≤ 1 / 10 := by
  intro b L halt
  induction halt with
  | nil b =>
    intro s h0 hle L1 L2 happ
    have h1 : L1 = [] := (List.append_eq_nil.mp happ.symm).1
    subst h1
    simpa [runGestures] using hle
  | vic h L hc ht IH =>
    intro s h0 hle L1 L2 happ
    cases L1 with
    | nil => simpa [runGestures] using hle
    | cons x L1t =>
      rw [List.cons_append, List.cons.injEq] at happ
      obtain ⟨hx, hL⟩ := happ
      subst hx
      have hstep := classifyStep_victory h 0 0 s hc
      have hvt : (classifyStep h 0 0 s).victoryTimer = 1 / 10 := by
        rw [hstep.1, h0 rfl]
        norm_num
      have hrun : runGestures (h :: L1t) s
          = runGestures L1t (classifyStep h 0 0 s) := rfl
      rw [hrun]
      exact IH (classifyStep h 0 0 s) (fun hb => by cases hb)
        (le_of_eq hvt) L1t L2 hL
  | tra h L hc hv IH =>
    intro s h0 hle L1 L2 happ
    cases L1 with
    | nil => simpa [runGestures] using hle
    | cons x L1t =>
      rw [List.cons_append, List.cons.injEq] at happ
      obtain ⟨hx, hL⟩ := happ
      subst hx
      have hstep := classifyStep_tracing h 0 0 s hc
      have hrun : runGestures (h :: L1t) s
          = runGestures L1t (classifyStep h 0 0 s) := rfl
      rw [hrun]
      exact IH (classifyStep h 0 0 s) (fun _ => hstep.1)
        (by rw [hstep.1]; norm_num) L1t L2 hL

/-- C7 (confirmed): along any strictly alternating victory/tracing
classification sequence started from the initial state, the victory
hold-timer never exceeds one tick's increment (0.1) at any prefix, so it
never accumulates toward the 2.0 s threshold: each tracing tick zeroes it
before the next victory tick can add its 0.1. -/
theorem alternating_victory_tracing_bounded :
    ∀ (b : Bool) (L : List Hand), AltVT b L →
    ∀ L1 L2, L = L1 ++ L2 →
    (runGestures L1 initState).victoryTimer ≤ 1 / 10 := by
  intro b L halt L1 L2 happ
  exact altVT_timer_bound_aux b L halt initState (fun _ => rfl)
    (by norm_num [initState]) L1 L2 happ

/-- Witness for `alternating_victory_tracing_bounded` on the concrete
two-tick sequence victory, tracing. -/
theorem alternating_victory_tracing_bounded_witness :
    (runGestures [victoryHand] initState).victoryTimer ≤ 1 / 10 := by
  exact alternating_victory_tracing_bounded true [victoryHand, tracingHand]
    (AltVT.vic victoryHand [tracingHand] chainClassifies_victoryHand
      (AltVT.tra tracingHand [] chainClassifies_tracingHand (AltVT.nil true)))
    [victoryHand] [tracingHand] rfl

/-- C9 (confirmed): a pinch classification on its rising edge
(`isPinching = false`).  With zero uploaded photos the warning status is
emitted (the trailing chain status then overwrites it within the same tick),
the display mode and the selected index are unchanged, and the step is a
total function of the state (no crash).  With photos present and a
`Math.random()` draw `0 ≤ r < 1`, the selected index `⌊r·count⌋` is in range
and the mode becomes ZOOM. -/
theorem pinch_select_empty_and_nonempty :
    (∀ (h : Hand) (r : ℚ) (s : SysState),
      chainClassifies h = GTag.pinch → s.isPinching = false →
      "AI: ⚠️ 空空如也 (请先插入照片)" ∈ (classifyStep h 0 r s).statusLog ∧
      (classifyStep h 0 r s).appState = s.appState ∧
      (classifyStep h 0 r s).zoomTargetIndex = s.zoomTargetIndex ∧
      (classifyStep h 0 r s).statusText
        = statusPrefix h ++ "👌 Pinch (Select)") ∧
    (∀ (h : Hand) (pc : ℕ) (r : ℚ) (s : SysState),
      chainClassifies h = GTag.pinch → s.isPinching = false → 0 < pc →
      0 ≤ r → r < 1 →
      (classifyStep h pc r s).appState = AppState.ZOOM ∧
      (classifyStep h pc r s).zoomTargetIndex = ⌊r * (pc : ℚ)⌋ ∧
      0 ≤ ⌊r * (pc : ℚ)⌋ ∧ ⌊r * (pc : ℚ)⌋ < (pc : ℤ)) := by
  constructor
  · intro h r s hc hpin
    have hp := classifyStep_pinch h 0 r s hc
    refine ⟨?_, ?_, ?_, hp.2.2.2.2.2.2.2.2.2.1⟩
    · rw [hp.2.2.2.2.2.2.2.2.2.2.1, hpin]
      simp
    · rw [hp.2.2.2.2.2.2.2.1, hpin]
      simp
    · rw [hp.2.2.2.2.2.2.2.2.1, hpin]
      simp
  · intro h pc r s hc hpin hpc hr0 hr1
    have hp := classifyStep_pinch h pc r s hc
    have hcond : s.isPinching = false ∧ 0 < pc := ⟨hpin, hpc⟩
    have hlt : r * (pc : ℚ) < ((pc : ℤ) : ℚ) := by
      push_cast
      calc r * (pc : ℚ) < 1 * (pc : ℚ) := by
            apply mul_lt_mul_of_pos_right hr1
            exact_mod_cast hpc
        _ = (pc : ℚ) := one_mul _
    refine ⟨?_, ?_, ?_, ?_⟩
    · rw [hp.2.2.2.2.2.2.2.1, if_pos hcond]
    · rw [hp.2.2.2.2.2.2.2.2.1, if_pos hcond]
    · exact Int.le_floor.mpr (by push_cast; positivity)
    · exact Int.floor_lt.mpr hlt

/-- Witness for `pinch_select_empty_and_nonempty`: the concrete pinch hand
on the initial state, with zero photos and with three photos. -/
theorem pinch_select_empty_and_nonempty_witness :
    ("AI: ⚠️ 空空如也 (请先插入照片)"
        ∈ (classifyStep pinchHand 0 (1 / 2) initState).statusLog ∧
      (classifyStep pinchHand 0 (1 / 2) initState).appState
        = initState.appState) ∧
    ((classifyStep pinchHand 3 (1 / 2) initState).appState = AppState.ZOOM ∧
      0 ≤ ⌊(1 / 2 : ℚ) * (3 : ℚ)⌋ ∧ ⌊(1 / 2 : ℚ) * (3 : ℚ)⌋ < (3 : ℤ)) := by
  have h1 := pinch_select_empty_and_nonempty.1 pinchHand (1 / 2) initState
    chainClassifies_pinchHand rfl
  have h2 := pinch_select_empty_and_nonempty.2 pinchHand 3 (1 / 2) initState
    chainClassifies_pinchHand rfl (by norm_num) (by norm_num) (by norm_num)
  exact ⟨⟨h1.1, h1.2.1⟩, h2.1, by exact_mod_cast h2.2.2.1, by exact_mod_cast h2.2.2.2⟩

/-! ### Display-mode transitions during the epic sequence (C1) -/

/-- A touch trace that arms the star hold at t = 100 ms and completes the
3000 ms hold at t = 3100 ms, triggering the epic sequence. -/
def epicTrace : List Ev :=
  [Ev.touchStart InputMode.touch 100 1 true, Ev.frame InputMode.touch 3100]

/-- The state reached by `epicTrace`: the epic sequence is active and
latched, one blessing and one audio cue fired, display mode still TREE. -/
theorem run_epicTrace_eq :
    run epicTrace initState =
      { appState := AppState.TREE
        statusText := "🌟 圣诞快乐! 🌟"
        statusLog := ["🌟 圣诞快乐! 🌟"]
        blessingCount := 1
        audioCueCount := 1
        bellCount := 0
        jingleCount := 0
        holdProgress := 0
        shakeIntensity := 3
        isGoldMode := false
        goldModeTimer := 0
        rotationVelocity := 0
        groupRotY := 0
        cameraZ := 110
        isEpic := true
        epicTimer := 2 / 125
        hasTriggeredEpic := true
        rainbowStarMode := true
        isPinching := false
        victoryTimer := 0
        threeTimer := 0
        zoomTargetIndex := -1
        isHoldingStar := true
        starHoldStart := 100
        lastPredictionTime := 0
        lastVideoTime := -1
        repulsionPoint := none
        touches := 1
        startTime := 100
        lastTapTime := 0
        startCount := 1 } := by
  have h1 : stepEv (Ev.touchStart InputMode.touch 100 1 true) initState
      = { initState with
          touches := 1, startTime := 100, startCount := 1,
          rotationVelocity := 0, isHoldingStar := true,
          starHoldStart := 100 } := by
    norm_num [stepEv, handleTouchStart, initState]
    all_goals decide
  show stepEv (Ev.frame InputMode.touch 3100)
      (stepEv (Ev.touchStart InputMode.touch 100 1 true) initState) = _
  rw [h1]
  norm_num [stepEv, animateFrame, starHoldCheck, epicAdvance,
    triggerEpicSequence, setStatus, initState]

/-- C1 (counterexample): with the epic sequence active (reached by a real
trace: star hold → trigger), an arriving open-hand classification still
changes the display mode from TREE to SCATTER, while the sequence stays
active — the code has no transition guard on the epic-active flag. -/
theorem epic_active_open_hand_changes_mode :
    (run epicTrace initState).isEpic = true ∧
    (run epicTrace initState).appState = AppState.TREE ∧
    chainClassifies openAllHand = GTag.openHand ∧
    (stepEv (Ev.predict ⟨true, 3200, 5, some openAllHand, 0, 0⟩)
        (run epicTrace initState)).appState = AppState.SCATTER ∧
    (stepEv (Ev.predict ⟨true, 3200, 5, some openAllHand, 0, 0⟩)
        (run epicTrace initState)).isEpic = true := by
  have hE := run_epicTrace_eq
  have hstep : stepEv (Ev.predict ⟨true, 3200, 5, some openAllHand, 0, 0⟩)
      (run epicTrace initState)
      = classifyStep openAllHand 0 0
        { run epicTrace initState with
          lastPredictionTime := 3200, lastVideoTime := 5 } := by
    rw [hE]
    norm_num [stepEv, predictWebcam]
  have hopen := classifyStep_open openAllHand 0 0
    { run epicTrace initState with
      lastPredictionTime := 3200, lastVideoTime := 5 }
    chainClassifies_openAllHand
  refine ⟨by rw [hE], by rw [hE], chainClassifies_openAllHand, ?_, ?_⟩
  · rw [hstep]
    exact hopen.1
  · rw [hstep, hopen.2.2.2.2.1, hE]

/-- C1 (amended): mode transitions are NOT suppressed while the epic
sequence is active — an open-hand classification still forces SCATTER, a
fist still forces TREE, a rising-edge pinch with photos still forces ZOOM,
and a fast two-finger-tap release still toggles TREE↔SCATTER, exactly as
when the sequence is inactive; the transition the sequence itself performs
is the forced return to TREE on the frame whose advanced timer passes
18 s, which also deactivates the sequence. -/
theorem epic_transitions_not_suppressed :
    (∀ (h : Hand) (pc : ℕ) (r : ℚ) (s : SysState), s.isEpic = true →
      chainClassifies h = GTag.openHand →
      (classifyStep h pc r s).appState = AppState.SCATTER) ∧
    (∀ (h : Hand) (pc : ℕ) (r : ℚ) (s : SysState), s.isEpic = true →
      chainClassifies h = GTag.fist →
      (classifyStep h pc r s).appState = AppState.TREE) ∧
    (∀ (h : Hand) (pc : ℕ) (r : ℚ) (s : SysState), s.isEpic = true →
      chainClassifies h = GTag.pinch → s.isPinching = false → 0 < pc →
      (classifyStep h pc r s).appState = AppState.ZOOM) ∧
    (∀ (now : ℚ) (c : ℕ) (ph : Option ℤ) (s : SysState), s.isEpic = true →
      now - s.startTime < 300 → s.startCount = 2 →
      (handleTouchEnd InputMode.touch now c ph s).appState
        = (if s.appState = AppState.TREE then AppState.SCATTER
           else AppState.TREE)) ∧
    (∀ (mode : InputMode) (now : ℚ) (s : SysState), s.isEpic = true →
      18 < s.epicTimer + 2 / 125 →
      (animateFrame mode now s).appState = AppState.TREE ∧
      (animateFrame mode now s).isEpic = false) := by
  refine ⟨?_, ?_, ?_, ?_, ?_⟩
  · intro h pc r s _ hc
    exact (classifyStep_open h pc r s hc).1
  · intro h pc r s _ hc
    exact (classifyStep_fist h pc r s hc).1
  · intro h pc r s _ hc hpin hpc
    rw [(classifyStep_pinch h pc r s hc).2.2.2.2.2.2.2.1,
      if_pos ⟨hpin, hpc⟩]
  · intro now c ph s _ h300 hsc
    rw [handleTouchEnd, if_neg (by simp : ¬(InputMode.touch = InputMode.camera))]
    dsimp only
    rw [if_pos h300, if_neg (by simp [hsc] : ¬(s.startCount = 1)), if_pos hsc]
    split_ifs <;> rfl
  · intro mode now s hE h18
    have hskip : ¬(s.isHoldingStar = true ∧ s.isEpic = false) := by
      simp [hE]
    rw [animateFrame, starHoldCheck, if_neg hskip, epicAdvance, if_pos hE]
    try dsimp only
    rw [if_pos h18]
    exact ⟨rfl, rfl⟩

/-- Witness for `epic_transitions_not_suppressed` at concrete epic-active
states and inputs. -/
theorem epic_transitions_not_suppressed_witness :
    (classifyStep openAllHand 0 0
        { initState with isEpic := true }).appState = AppState.SCATTER ∧
    (classifyStep fistHand 0 0
        { initState with isEpic := true }).appState = AppState.TREE ∧
    (classifyStep pinchHand 3 0
        { initState with isEpic := true }).appState = AppState.ZOOM ∧
    (handleTouchEnd InputMode.touch 100 0 none
        { initState with isEpic := true, startCount := 2 }).appState
      = AppState.SCATTER ∧
    (animateFrame InputMode.touch 0
        { initState with isEpic := true, epicTimer := 18 }).appState
      = AppState.TREE := by
  refine ⟨epic_transitions_not_suppressed.1 openAllHand 0 0 _ rfl
      chainClassifies_openAllHand,
    epic_transitions_not_suppressed.2.1 fistHand 0 0 _ rfl
      chainClassifies_fistHand,
    epic_transitions_not_suppressed.2.2.1 pinchHand 3 0 _ rfl
      chainClassifies_pinchHand rfl (by norm_num), ?_, ?_⟩
  · rw [epic_transitions_not_suppressed.2.2.2.1 100 0 none _ rfl
      (by norm_num [initState]) rfl]
    rfl
  · exact (epic_transitions_not_suppressed.2.2.2.2 InputMode.touch 0 _ rfl
      (by norm_num)).1

/-! ### Single-flight and at-most-once properties of the epic trigger
(C4, C10) -/

/-- `blessingCount` plus the one remaining increment the unlatched trigger
may still perform: constant under every event. -/
def blessingBudget (s : SysState) : ℕ :=
  s.blessingCount + cond s.hasTriggeredEpic 0 1

/-- `audioCueCount` plus the one remaining cue the unlatched trigger may
still play: constant under every event. -/
def audioBudget (s : SysState) : ℕ :=
  s.audioCueCount + cond s.hasTriggeredEpic 0 1

theorem trigger_latched (s : SysState) (h : s.hasTriggeredEpic = true) :
    triggerEpicSequence s = s := by
  rw [triggerEpicSequence, if_pos h]

theorem trigger_budgets (s : SysState) :
    blessingBudget (triggerEpicSequence s) = blessingBudget s ∧
    audioBudget (triggerEpicSequence s) = audioBudget s ∧
    (s.hasTriggeredEpic = true →
      (triggerEpicSequence s).hasTriggeredEpic = true) ∧
    ((triggerEpicSequence s).isEpic = true →
      s.isEpic = true ∨ (triggerEpicSequence s).hasTriggeredEpic = true) := by
  rw [triggerEpicSequence]
  split_ifs with hl <;> simp_all [blessingBudget, audioBudget, setStatus]

theorem handleTouchStart_epic_fields (mode : InputMode) (now : ℚ) (count : ℕ)
    (starHit : Bool) (s : SysState) :
    (handleTouchStart mode now count starHit s).isEpic = s.isEpic ∧
    (handleTouchStart mode now count starHit s).hasTriggeredEpic
      = s.hasTriggeredEpic ∧
    (handleTouchStart mode now count starHit s).blessingCount
      = s.blessingCount ∧
    (handleTouchStart mode now count starHit s).audioCueCount
      = s.audioCueCount := by
  rw [handleTouchStart]
  split_ifs <;> simp

theorem handleTouchMove_epic_fields (mode : InputMode) (count : ℕ) (dx : ℚ)
    (inter : Option Vec3) (dDist dAngle : ℚ) (s : SysState) :
    (handleTouchMove mode count dx inter dDist dAngle s).isEpic = s.isEpic ∧
    (handleTouchMove mode count dx inter dDist dAngle s).hasTriggeredEpic
      = s.hasTriggeredEpic ∧
    (handleTouchMove mode count dx inter dDist dAngle s).blessingCount
      = s.blessingCount ∧
    (handleTouchMove mode count dx inter dDist dAngle s).audioCueCount
      = s.audioCueCount := by
  rw [handleTouchMove]
  split_ifs <;> simp

theorem handleTouchEnd_epic_fields (mode : InputMode) (now : ℚ) (c : ℕ)
    (ph : Option ℤ) (s : SysState) :
    (handleTouchEnd mode now c ph s).isEpic = s.isEpic ∧
    (handleTouchEnd mode now c ph s).hasTriggeredEpic = s.hasTriggeredEpic ∧
    (handleTouchEnd mode now c ph s).blessingCount = s.blessingCount ∧
    (handleTouchEnd mode now c ph s).audioCueCount = s.audioCueCount := by
  cases ph <;>
    simp [handleTouchEnd, setStatus, apply_ite SysState.isEpic,
      apply_ite SysState.hasTriggeredEpic, apply_ite SysState.blessingCount,
      apply_ite SysState.audioCueCount]

/-- One classification preserves both budgets, keeps the latch monotone, and
can only activate the epic flag together with the latch. -/
theorem classifyStep_epic_invariants (h : Hand) (pc : ℕ) (r : ℚ)
    (s : SysState) :
    blessingBudget (classifyStep h pc r s) = blessingBudget s ∧
    audioBudget (classifyStep h pc r s) = audioBudget s ∧
    (s.hasTriggeredEpic = true →
      (classifyStep h pc r s).hasTriggeredEpic = true) ∧
    ((classifyStep h pc r s).isEpic = true →
      s.isEpic = true ∨ (classifyStep h pc r s).hasTriggeredEpic = true) := by
  rcases htag : chainClassifies h with _ | _ | _ | _ | _ | _
  · have hx := classifyStep_fist h pc r s htag
    rw [blessingBudget, blessingBudget, audioBudget, audioBudget,
      hx.2.2.2.2.1, hx.2.2.2.2.2.1, hx.2.2.2.2.2.2.1, hx.2.2.2.2.2.2.2.1]
    exact ⟨rfl, rfl, fun hl => hl, fun he => Or.inl he⟩
  · have hx := classifyStep_open h pc r s htag
    rw [blessingBudget, blessingBudget, audioBudget, audioBudget,
      hx.2.2.2.2.1, hx.2.2.2.2.2.1, hx.2.2.2.2.2.2.1, hx.2.2.2.2.2.2.2.1]
    exact ⟨rfl, rfl, fun hl => hl, fun he => Or.inl he⟩
  · have hx := classifyStep_pinch h pc r s htag
    rw [blessingBudget, blessingBudget, audioBudget, audioBudget,
      hx.2.2.2.1, hx.2.2.2.2.1, hx.2.2.2.2.2.1, hx.2.2.2.2.2.2.1]
    exact ⟨rfl, rfl, fun hl => hl, fun he => Or.inl he⟩
  · have hx := classifyStep_victory h pc r s htag
    rw [blessingBudget, blessingBudget, audioBudget, audioBudget,
      hx.2.2.2.2.1, hx.2.2.2.2.2.1, hx.2.2.2.2.2.2.1, hx.2.2.2.2.2.2.2.1]
    split_ifs <;> simp_all
  · have hx := classifyStep_three h pc r s htag
    rw [blessingBudget, blessingBudget, audioBudget, audioBudget,
      hx.2.2.2.1, hx.2.2.2.2.1, hx.2.2.2.2.2.1, hx.2.2.2.2.2.2.1]
    exact ⟨rfl, rfl, fun hl => hl, fun he => Or.inl he⟩
  · have hx := classifyStep_tracing h pc r s htag
    rw [blessingBudget, blessingBudget, audioBudget, audioBudget,
      hx.2.2.2.2.1, hx.2.2.2.2.2.1, hx.2.2.2.2.2.2.1, hx.2.2.2.2.2.2.2.1]
    exact ⟨rfl, rfl, fun hl => hl, fun he => Or.inl he⟩

theorem predictWebcam_epic_invariants (inp : PredictInput) (s : SysState) :
    blessingBudget (predictWebcam inp s) = blessingBudget s ∧
    audioBudget (predictWebcam inp s) = audioBudget s ∧
    (s.hasTriggeredEpic = true →
      (predictWebcam inp s).hasTriggeredEpic = true) ∧
    ((predictWebcam inp s).isEpic = true →
      s.isEpic = true ∨ (predictWebcam inp s).hasTriggeredEpic = true) := by
  rw [predictWebcam]
  split_ifs with h1 h2 h3
  · exact ⟨rfl, rfl, fun hl => hl, fun he => Or.inl he⟩
  · exact ⟨rfl, rfl, fun hl => hl, fun he => Or.inl he⟩
  · exact ⟨rfl, rfl, fun hl => hl, fun he => Or.inl he⟩
  · cases hh : inp.hand with
    | none => exact ⟨rfl, rfl, fun hl => hl, fun he => Or.inl he⟩
    | some h =>
      have hx := classifyStep_epic_invariants h inp.photoCount inp.rand
        { s with lastPredictionTime := inp.now, lastVideoTime := inp.videoTime }
      exact ⟨hx.1, hx.2.1, hx.2.2.1, hx.2.2.2⟩

theorem starHoldCheck_epic_invariants (mode : InputMode) (now : ℚ)
    (s : SysState) :
    blessingBudget (starHoldCheck mode now s) = blessingBudget s ∧
    audioBudget (starHoldCheck mode now s) = audioBudget s ∧
    (s.hasTriggeredEpic = true →
      (starHoldCheck mode now s).hasTriggeredEpic = true) ∧
    ((starHoldCheck mode now s).isEpic = true →
      s.isEpic = true ∨ (starHoldCheck mode now s).hasTriggeredEpic = true) := by
  simp only [starHoldCheck]
  split_ifs with h1 h2 h3
  · have htr := trigger_budgets
      { s with holdProgress := min ((now - s.starHoldStart) / 3000) 1 }
    refine ⟨by rw [htr.1]; rfl, by rw [htr.2.1]; rfl, ?_, ?_⟩
    · intro hl
      exact absurd hl (by simp [h3.2])
    · intro _
      right
      rw [triggerEpicSequence, if_neg (by simpa using h3.2)]
      rfl
  · exact ⟨rfl, rfl, fun hl => hl, fun he => Or.inl he⟩
  · exact ⟨rfl, rfl, fun hl => hl, fun he => Or.inl he⟩
  · exact ⟨rfl, rfl, fun hl => hl, fun he => Or.inl he⟩

theorem epicAdvance_epic_invariants (s : SysState) :
    blessingBudget (epicAdvance s) = blessingBudget s ∧
    audioBudget (epicAdvance s) = audioBudget s ∧
    (s.hasTriggeredEpic = true → (epicAdvance s).hasTriggeredEpic = true) ∧
    ((epicAdvance s).isEpic = true → s.isEpic = true) := by
  simp only [epicAdvance]
  split_ifs with h1 h2
  · exact ⟨rfl, rfl, fun hl => hl, fun _ => h1⟩
  · exact ⟨rfl, rfl, fun hl => hl, fun _ => h1⟩
  · exact ⟨rfl, rfl, fun hl => hl, fun he => he⟩

theorem animateFrame_epic_invariants (mode : InputMode) (now : ℚ)
    (s : SysState) :
    blessingBudget (animateFrame mode now s) = blessingBudget s ∧
    audioBudget (animateFrame mode now s) = audioBudget s ∧
    (s.hasTriggeredEpic = true →
      (animateFrame mode now s).hasTriggeredEpic = true) ∧
    ((animateFrame mode now s).isEpic = true →
      s.isEpic = true ∨ (animateFrame mode now s).hasTriggeredEpic = true) := by
  have h1 := starHoldCheck_epic_invariants mode now s
  have h2 := epicAdvance_epic_invariants (starHoldCheck mode now s)
  rw [animateFrame]
  refine ⟨by rw [h2.1, h1.1], by rw [h2.2.1, h1.2.1],
    fun hl => h2.2.2.1 (h1.2.2.1 hl), fun he => ?_⟩
  rcases h1.2.2.2 (h2.2.2.2 he) with hs | hlatch
  · exact Or.inl hs
  · exact Or.inr (h2.2.2.1 hlatch)

/-- Every event preserves both budgets, keeps the latch monotone, and can
only activate the epic flag together with the latch. -/
theorem stepEv_epic_invariants (e : Ev) (s : SysState) :
    blessingBudget (stepEv e s) = blessingBudget s ∧
    audioBudget (stepEv e s) = audioBudget s ∧
    (s.hasTriggeredEpic = true → (stepEv e s).hasTriggeredEpic = true) ∧
    ((stepEv e s).isEpic = true →
      s.isEpic = true ∨ (stepEv e s).hasTriggeredEpic = true) := by
  cases e with
  | predict inp =>
    simp only [stepEv]
    exact predictWebcam_epic_invariants inp s
  | frame mode now =>
    simp only [stepEv]
    exact animateFrame_epic_invariants mode now s
  | touchStart mode now count starHit =>
    simp only [stepEv]
    have hx := handleTouchStart_epic_fields mode now count starHit s
    refine ⟨?_, ?_, fun hl => ?_, fun he => ?_⟩
    · rw [blessingBudget, blessingBudget, hx.2.2.1, hx.2.1]
    · rw [audioBudget, audioBudget, hx.2.2.2, hx.2.1]
    · rw [hx.2.1]; exact hl
    · rw [hx.1] at he; exact Or.inl he
  | touchMove mode count dx inter dDist dAngle =>
    simp only [stepEv]
    have hx := handleTouchMove_epic_fields mode count dx inter dDist dAngle s
    refine ⟨?_, ?_, fun hl => ?_, fun he => ?_⟩
    · rw [blessingBudget, blessingBudget, hx.2.2.1, hx.2.1]
    · rw [audioBudget, audioBudget, hx.2.2.2, hx.2.1]
    · rw [hx.2.1]; exact hl
    · rw [hx.1] at he; exact Or.inl he
  | touchEnd mode now c ph =>
    simp only [stepEv]
    have hx := handleTouchEnd_epic_fields mode now c ph s
    refine ⟨?_, ?_, fun hl => ?_, fun he => ?_⟩
    · rw [blessingBudget, blessingBudget, hx.2.2.1, hx.2.1]
    · rw [audioBudget, audioBudget, hx.2.2.2, hx.2.1]
    · rw [hx.2.1]; exact hl
    · rw [hx.1] at he; exact Or.inl he

/-- Budgets and the latch/epic invariants lifted to whole event traces. -/
theorem run_epic_invariants (evs : List Ev) (s : SysState) :
    blessingBudget (run evs s) = blessingBudget s ∧
    audioBudget (run evs s) = audioBudget s ∧
    (s.hasTriggeredEpic = true → (run evs s).hasTriggeredEpic = true) ∧
    ((s.isEpic = true → s.hasTriggeredEpic = true) →
      (run evs s).isEpic = true → (run evs s).hasTriggeredEpic = true) := by
  induction evs generalizing s with
  | nil => exact ⟨rfl, rfl, fun hl => hl, fun hEL => hEL⟩
  | cons e rest IH =>
    have hs := stepEv_epic_invariants e s
    have hr := IH (stepEv e s)
    have hrun : run (e :: rest) s = run rest (stepEv e s) := rfl
    rw [hrun]
    refine ⟨by rw [hr.1, hs.1], by rw [hr.2.1, hs.2.1],
      fun hl => hr.2.2.1 (hs.2.2.1 hl), fun hEL => hr.2.2.2 ?_⟩
    intro he
    rcases hs.2.2.2 he with hsE | hlatch
    · exact hs.2.2.1 (hEL hsE)
    · exact hlatch

/-- C4 (confirmed): `triggerEpicSequence` is single-flight.  A latched call
is an exact no-op (the whole state is returned unchanged: the elapsed timer
is not reset, the blessing counter is not incremented again, the audio cue
is not replayed), and in every reachable state "active" implies "latched",
so a call made while the sequence is active is also a no-op. -/
theorem epic_trigger_single_flight :
    (∀ s : SysState, s.hasTriggeredEpic = true → triggerEpicSequence s = s) ∧
    (∀ evs : List Ev,
      (run evs initState).isEpic = true ∨
        (run evs initState).hasTriggeredEpic = true →
      triggerEpicSequence (run evs initState) = run evs initState) := by
  refine ⟨trigger_latched, ?_⟩
  intro evs hor
  have hinit : initState.isEpic = true → initState.hasTriggeredEpic = true :=
    fun h => by simp [initState] at h
  have hEL := (run_epic_invariants evs initState).2.2.2 hinit
  rcases hor with hE | hl
  · exact trigger_latched _ (hEL hE)
  · exact trigger_latched _ hl

/-- Witness for `epic_trigger_single_flight`: after the star-hold trace has
triggered the sequence, a second trigger call changes nothing. -/
theorem epic_trigger_single_flight_witness :
    triggerEpicSequence (run epicTrace initState) = run epicTrace initState := by
  apply epic_trigger_single_flight.2 epicTrace
  left
  rw [run_epicTrace_eq]

/-- C10 (confirmed): within one scene lifetime the epic sequence takes
effect at most once — no event ever clears the `hasTriggeredEpic` latch
(in particular the deactivation at elapsed > 18 s does not), and along every
event trace from the initial state the blessing counter is incremented and
the audio cue played at most one time. -/
theorem epic_at_most_once_per_lifetime :
    (∀ (e : Ev) (s : SysState), s.hasTriggeredEpic = true →
      (stepEv e s).hasTriggeredEpic = true) ∧
    (∀ evs : List Ev, (run evs initState).blessingCount ≤ 1 ∧
      (run evs initState).audioCueCount ≤ 1) := by
  refine ⟨fun e s hl => (stepEv_epic_invariants e s).2.2.1 hl, fun evs => ?_⟩
  have h := run_epic_invariants evs initState
  constructor
  · calc (run evs initState).blessingCount
        ≤ blessingBudget (run evs initState) := Nat.le_add_right _ _
      _ = blessingBudget initState := h.1
      _ = 1 := rfl
  · calc (run evs initState).audioCueCount
        ≤ audioBudget (run evs initState) := Nat.le_add_right _ _
      _ = audioBudget initState := h.2.1
      _ = 1 := rfl

/-- Witness for `epic_at_most_once_per_lifetime`: the latch survives a
frame (the event kind that deactivates the sequence), and the triggering
trace itself ends with exactly one blessing. -/
theorem epic_at_most_once_per_lifetime_witness :
    (stepEv (Ev.frame InputMode.touch 0)
        { initState with hasTriggeredEpic := true }).hasTriggeredEpic
      = true ∧
    (run epicTrace initState).blessingCount ≤ 1 :=
  ⟨epic_at_most_once_per_lifetime.1 (Ev.frame InputMode.touch 0)
      { initState with hasTriggeredEpic := true } rfl,
    (epic_at_most_once_per_lifetime.2 epicTrace).1⟩

/-! ### Determinism of the victory hold-timer in classification ticks (C6) -/

/-- A sequence of `predictWebcam` calls. -/
def runPredict (L : List PredictInput) (s : SysState) : SysState :=
  L.foldl (fun a i => predictWebcam i a) s

/-- The call classifies a hand: it passes the readiness check, the 100 ms
rate gate, the new-video-frame gate, and a hand is detected. -/
def classifies (inp : PredictInput) (s : SysState) : Bool :=
  inp.ready && !(decide (inp.now - s.lastPredictionTime < 100)) &&
    !(decide (inp.videoTime = s.lastVideoTime)) && inp.hand.isSome

/-- How many calls of the list classify a hand (the gates depend on the
evolving `lastPredictionTime` / `lastVideoTime` state). -/
def countClassified : List PredictInput → SysState → ℕ
  | [], _ => 0
  | inp :: rest, s =>
    cond (classifies inp s) 1 0 + countClassified rest (predictWebcam inp s)

/-- The victory-relevant core of the state: hold-timer, epic flag, latch.
A victory classification updates it as a function of itself alone. -/
structure VCore where
  vt : ℚ
  epic : Bool
  latch : Bool
deriving DecidableEq, Repr

def vcore (s : SysState) : VCore :=
  ⟨s.victoryTimer, s.isEpic, s.hasTriggeredEpic⟩

/-- The effect of one victory classification on the core: timer += 0.1, and
past the 2.0 threshold with the sequence inactive the trigger fires (latch
permitting) and the timer resets. -/
def vcoreStep (c : VCore) : VCore :=
  if 2 < c.vt + 1 / 10 ∧ c.epic = false then
    ⟨0, if c.latch = true then c.epic else true, true⟩
  else ⟨c.vt + 1 / 10, c.epic, c.latch⟩

theorem vcore_classifyStep (h : Hand) (pc : ℕ) (r : ℚ) (s : SysState)
    (hc : chainClassifies h = GTag.victory) :
    vcore (classifyStep h pc r s) = vcoreStep (vcore s) := by
  have hx := classifyStep_victory h pc r s hc
  rw [vcore, vcore, vcoreStep, hx.1, hx.2.2.2.2.1, hx.2.2.2.2.2.1]
  dsimp only
  split_ifs <;> rfl

theorem vcore_predictWebcam (inp : PredictInput) (s : SysState)
    (hh : inp.hand = some victoryHand) :
    vcore (predictWebcam inp s) =
      (if classifies inp s = true then vcoreStep (vcore s) else vcore s) := by
  by_cases h1 : inp.ready = false
  · rw [predictWebcam, if_pos h1, if_neg]
    simp [classifies, h1]
  by_cases h2 : inp.now - s.lastPredictionTime < 100
  · rw [predictWebcam, if_neg h1, if_pos h2, if_neg]
    simp [classifies, h2]
  by_cases h3 : inp.videoTime = s.lastVideoTime
  · rw [predictWebcam, if_neg h1, if_neg h2, if_pos h3, if_neg]
    · rfl
    · simp [classifies, h3]
  · rw [predictWebcam, if_neg h1, if_neg h2, if_neg h3, hh, if_pos]
    · rw [vcore_classifyStep victoryHand inp.photoCount inp.rand _
        chainClassifies_victoryHand]
      rfl
    · rw [Bool.not_eq_false] at h1
      simp [classifies, h1, h2, h3, hh]

theorem vcore_runPredict (L : List PredictInput) (s : SysState)
    (hall : ∀ inp ∈ L, inp.hand = some victoryHand) :
    vcore (runPredict L s) = vcoreStep^[countClassified L s] (vcore s) := by
  induction L generalizing s with
  | nil => rfl
  | cons inp rest IH =>
    have hall2 : ∀ i ∈ rest, i.hand = some victoryHand :=
      fun i hi => hall i (List.mem_cons_of_mem inp hi)
    have hstep := vcore_predictWebcam inp s (hall inp (List.mem_cons_self inp rest))
    have hrun : runPredict (inp :: rest) s
        = runPredict rest (predictWebcam inp s) := rfl
    rw [hrun, IH (predictWebcam inp s) hall2]
    cases hcl : classifies inp s with
    | false =>
      have hv : vcore (predictWebcam inp s) = vcore s := by
        rw [hstep, if_neg]
        simp [hcl]
      have hc : countClassified (inp :: rest) s
          = countClassified rest (predictWebcam inp s) := by
        show cond (classifies inp s) 1 0 + _ = _
        rw [hcl]
        simp
      rw [hv, hc]
    | true =>
      have hv : vcore (predictWebcam inp s) = vcoreStep (vcore s) := by
        rw [hstep, if_pos hcl]
      have hc : countClassified (inp :: rest) s
          = countClassified rest (predictWebcam inp s) + 1 := by
        show cond (classifies inp s) 1 0 + _ = _
        rw [hcl]
        simp [Nat.add_comm]
      rw [hv, hc, Function.iterate_add_apply]
      rfl

theorem vcoreStep_iter_le20 :
    ∀ n : ℕ, n ≤ 20 →
      vcoreStep^[n] (vcore initState) = ⟨(n : ℚ) / 10, false, false⟩ := by
  intro n
  induction n with
  | zero =>
    intro _
    norm_num [Function.iterate_zero_apply, vcore, initState, VCore.mk.injEq]
  | succ k IH =>
    intro hn
    have hk19 : (k : ℚ) ≤ 19 := by
      exact_mod_cast Nat.le_of_lt_succ (Nat.lt_of_succ_le hn)
    rw [Function.iterate_succ_apply', IH (Nat.le_of_succ_le hn), vcoreStep]
    rw [if_neg]
    · simp only [VCore.mk.injEq, and_self, and_true]
      push_cast
      ring
    · rintro ⟨hgt, -⟩
      simp only at hgt
      linarith

theorem vcoreStep_iter_21 :
    vcoreStep^[21] (vcore initState) = ⟨0, true, true⟩ := by
  rw [show (21 : ℕ) = 20 + 1 from rfl, Function.iterate_succ_apply',
    vcoreStep_iter_le20 20 (by norm_num), vcoreStep]
  rw [if_pos]
  · simp
  · exact ⟨by norm_num, rfl⟩

/-- C6 (confirmed): the victory hold-timer is driven purely by the number of
classification ticks, never by their wall-clock timestamps.  Two runs of
victory-classified `predictWebcam` calls whose gate-passing (classified)
counts agree end with the same `victoryTimer` and the same epic latch,
whatever their `now`/frame timestamps; and the per-count dynamics is the
fixed iteration `vcoreStep` (+0.1 per classified tick), which from the
initial state reaches timer `n/10` with no trigger for every `n ≤ 20` and
first crosses the 2.0 threshold — firing the trigger — at the 21st
classification in every run. -/
theorem victory_threshold_deterministic :
    (∀ (L1 L2 : List PredictInput) (s : SysState),
      (∀ i ∈ L1, i.hand = some victoryHand) →
      (∀ i ∈ L2, i.hand = some victoryHand) →
      countClassified L1 s = countClassified L2 s →
      (runPredict L1 s).victoryTimer = (runPredict L2 s).victoryTimer ∧
      (runPredict L1 s).hasTriggeredEpic
        = (runPredict L2 s).hasTriggeredEpic) ∧
    (∀ (L : List PredictInput) (s : SysState),
      (∀ i ∈ L, i.hand = some victoryHand) →
      vcore (runPredict L s) = vcoreStep^[countClassified L s] (vcore s)) ∧
    (∀ n : ℕ, n ≤ 20 →
      vcoreStep^[n] (vcore initState) = ⟨(n : ℚ) / 10, false, false⟩) ∧
    vcoreStep^[21] (vcore initState) = ⟨0, true, true⟩ := by
  refine ⟨?_, vcore_runPredict, vcoreStep_iter_le20, vcoreStep_iter_21⟩
  intro L1 L2 s h1 h2 hcnt
  have e1 := vcore_runPredict L1 s h1
  have e2 := vcore_runPredict L2 s h2
  have heq : vcore (runPredict L1 s) = vcore (runPredict L2 s) := by
    rw [e1, e2, hcnt]
  exact ⟨congrArg VCore.vt heq, congrArg VCore.latch heq⟩

/-- Witness for `victory_threshold_deterministic` at concrete inputs: two
single-call runs with very different timestamps (1000 ms and 50000 ms) both
classify once and agree on the timer, and the iteration facts at n = 20. -/
theorem victory_threshold_deterministic_witness :
    ((runPredict [⟨true, 1000, 5, some victoryHand, 0, 0⟩] initState).victoryTimer
        = (runPredict [⟨true, 50000, 9, some victoryHand, 0, 0⟩]
            initState).victoryTimer) ∧
    vcoreStep^[20] (vcore initState) = ⟨(20 : ℚ) / 10, false, false⟩ ∧
    vcore (runPredict [⟨true, 1000, 5, some victoryHand, 0, 0⟩] initState)
      = vcoreStep^[countClassified
          [⟨true, 1000, 5, some victoryHand, 0, 0⟩] initState]
          (vcore initState) := by
  have hca : classifies ⟨true, 1000, 5, some victoryHand, 0, 0⟩ initState
      = true := by
    norm_num [classifies, initState]
  have hcb : classifies ⟨true, 50000, 9, some victoryHand, 0, 0⟩ initState
      = true := by
    norm_num [classifies, initState]
  have hna : countClassified [⟨true, 1000, 5, some victoryHand, 0, 0⟩]
      initState = 1 := by
    show cond (classifies ⟨true, 1000, 5, some victoryHand, 0, 0⟩ initState)
      1 0 + 0 = 1
    rw [hca]
    rfl
  have hnb : countClassified [⟨true, 50000, 9, some victoryHand, 0, 0⟩]
      initState = 1 := by
    show cond (classifies ⟨true, 50000, 9, some victoryHand, 0, 0⟩ initState)
      1 0 + 0 = 1
    rw [hcb]
    rfl
  refine ⟨?_, victory_threshold_deterministic.2.2.1 20 (by norm_num), ?_⟩
  · exact (victory_threshold_deterministic.1 _ _ initState
      (by intro i hi; simp at hi; rw [hi])
      (by intro i hi; simp at hi; rw [hi])
      (by rw [hna, hnb])).1
  · exact victory_threshold_deterministic.2.1 _ initState
      (by intro i hi; simp at hi; rw [hi])

end JewelTree
